/-
  Verification of the TD3 implementation in `src/garage/tf/algos/td3.py`
  against its natural-language specification.

  The embedding is shallow: numpy/TensorFlow float arrays become `List ℚ`
  (rationals, so every definition is executable and decidable), batched
  array arithmetic becomes per-row computation over a list of transitions,
  and the TensorFlow session callables built by `init_opt`
  (`f_train_qf`, `f_train_qf2`, `f_train_policy`) are passed in as oracle
  functions, since their numeric effect is produced by the external
  deep-learning framework.  The control flow, data flow and arithmetic of
  `TD3.optimize_policy` and the graph construction of `TD3.init_opt` are
  translated directly from the source.
-/
import Mathlib

namespace TD3

/-- A transition sampled from the replay buffer
    (`transitions` dict in `optimize_policy`, lines 248-259). -/
structure Transition where
  observation : List ℚ
  action : List ℚ
  reward : ℚ
  /-- terminal flag, stored as a float (0.0 or 1.0) in the buffer. -/
  terminal : ℚ
  next_observation : List ℚ
  /-- goal, present when `input_include_goal` is set (line 259). -/
  goal : List ℚ
deriving Repr, DecidableEq

/-- The hyperparameters of `TD3.__init__` that the verified claims touch. -/
structure Config where
  /-- Parameter `target_update_tau`, stored as `self.tau`. -/
  tau : ℚ
  discount : ℚ
  clip_return : ℚ
  clip_pos_returns : Bool
  input_include_goal : Bool
  policy_weight_decay : ℚ
  qf_weight_decay : ℚ
  buffer_batch_size : ℕ
deriving Repr, DecidableEq

/-- Scalar `np.clip(x, lo, hi)`: `minimum(maximum(x, lo), hi)`
    (numpy semantics; in particular the result is `hi` when `lo > hi`). -/
def np_clip (x lo hi : ℚ) : ℚ := min (max x lo) hi

/-- Mean `tf.reduce_mean` / `np.mean` over a flat vector.
    (Division by zero yields 0 in Lean; TensorFlow yields NaN on an empty
    tensor — all claims quantify over nonempty batches where it matters.) -/
def mean (xs : List ℚ) : ℚ := xs.sum / xs.length

/-- Loss `tf.nn.l2_loss(v)`: half the sum of squares of the entries of `v`. -/
def l2_loss (v : List ℚ) : ℚ := (v.map (fun x => x * x)).sum / 2

/-- Sum `tf.add_n([tf.nn.l2_loss(v) for v in vars])`. -/
def l2_sum (vs : List (List ℚ)) : ℚ := (vs.map l2_loss).sum

/-- Row of `inputs` for one transition: `np.concatenate((observations, goals))`
    when `input_include_goal`, else the observation (lines 258-264). -/
def input_row (cfg : Config) (tr : Transition) : List ℚ :=
  if cfg.input_include_goal then tr.observation ++ tr.goal else tr.observation

/-- Row of `next_inputs` for one transition (lines 258-264). -/
def next_input_row (cfg : Config) (tr : Transition) : List ℚ :=
  if cfg.input_include_goal then tr.next_observation ++ tr.goal
  else tr.next_observation

/-- The three frozen target networks built by `init_opt`
    (`target_policy_f_prob_online`, `target_qf_f_prob_online`,
    `target_qf2_f_prob_online`), as row-wise functions. -/
structure TargetNets where
  target_policy : List ℚ → List ℚ
  target_qf : List ℚ → List ℚ → ℚ
  target_qf2 : List ℚ → List ℚ → ℚ

/-- Tuple `clip_range` as built on lines 272-273:
    `(-clip_return, 0. if clip_pos_returns else clip_return)`. -/
def clip_range (cfg : Config) : ℚ × ℚ :=
  (-cfg.clip_return, if cfg.clip_pos_returns then 0 else cfg.clip_return)

/-- Lines 266-276 of `optimize_policy`, for one sampled transition:
    the target action is the output of the target policy at the next input,
    the bootstrap value is the minimum of the two target critics there,
    and the target is the clipped TD(0) value
    `clip(reward + (1 - terminal) * discount * min_target_q, lo, hi)`. -/
def y_of (cfg : Config) (nets : TargetNets) (tr : Transition) : ℚ :=
  let ni := next_input_row cfg tr
  let target_action := nets.target_policy ni
  let target_qval := nets.target_qf ni target_action
  let target_q2val := nets.target_qf2 ni target_action
  let target_min := min target_qval target_q2val
  np_clip (tr.reward + (1 - tr.terminal) * cfg.discount * target_min)
    (clip_range cfg).1 (clip_range cfg).2

/-- The vector `ys` of lines 266-276 (the numpy code is columnwise over the
    batch; per-row computation is equivalent). -/
def compute_ys (cfg : Config) (nets : TargetNets) (batch : List Transition) :
    List ℚ :=
  batch.map (y_of cfg nets)

/-- One step event of `optimize_policy`, in program order.  The critic
    training events record the target vector they are fed. -/
inductive Event where
  | sample (batch_size : ℕ)
  | train_qf (ys : List ℚ)
  | train_qf2 (ys : List ℚ)
  | train_policy
  | update_target
  | update_target2
deriving Repr, DecidableEq

/-- The TensorFlow session callables consumed by `optimize_policy`, as
    oracles: `replay_buffer.sample`, and the three training callables
    built by `init_opt` (each critic callable returns the fetched
    `(qval_loss, qval)` pair, the policy callable the fetched
    `action_loss`). -/
structure Oracles where
  sample : ℕ → List Transition
  f_train_qf : List ℚ → List (List ℚ) → List (List ℚ) → ℚ × List ℚ
  f_train_qf2 : List ℚ → List (List ℚ) → List (List ℚ) → ℚ × List ℚ
  f_train_policy : List (List ℚ) → ℚ

/-- Result tuple of `optimize_policy` (line 290):
    `return qval_loss, ys, qval, action_loss`. -/
abbrev Result := ℚ × List ℚ × List ℚ × ℚ

/-- Function `TD3.optimize_policy(itr, samples_data)`, lines 236-290, returning the
    result tuple together with the trace of session operations it runs, in
    program order.  `itr` is accepted and ignored, exactly as in the
    source. -/
def optimize_policy (cfg : Config) (nets : TargetNets) (o : Oracles)
    (itr : ℕ) : Result × List Event :=
  let _ := itr
  let transitions := o.sample cfg.buffer_batch_size
  let inputs := transitions.map (input_row cfg)
  let actions := transitions.map Transition.action
  let ys := compute_ys cfg nets transitions
  let r1 := o.f_train_qf ys inputs actions
  let qval_loss := r1.1
  let qval := r1.2
  let r2 := o.f_train_qf2 ys inputs actions
  let q2val_loss := r2.1
  let q2val := r2.2
  let qval' := if q2val_loss = min qval_loss q2val_loss then q2val else qval
  let qval_loss' := min qval_loss q2val_loss
  let action_loss := o.f_train_policy inputs
  ((qval_loss', ys, qval', action_loss),
   [Event.sample cfg.buffer_batch_size, Event.train_qf ys, Event.train_qf2 ys,
    Event.train_policy, Event.update_target, Event.update_target2])

/-!
### Variable / graph-construction model (`init_opt`, lines 130-211)

TensorFlow variables are modelled by their scope name, an index within the
scope, and the `trainable` flag they were created with.  `build_net` with
`trainable=False` (lines 132-137) creates every variable of the copy with
the flag cleared; `get_trainable_vars` filters on the flag.
-/

/-- A TensorFlow variable: scope it was created in, position in the scope,
    and the `trainable` flag passed at creation. -/
structure Variable where
  scope : String
  idx : ℕ
  trainable : Bool
deriving Repr, DecidableEq

/-- The variables created by `build_net(trainable=b, name=scope)` for a
    network with `n` weight tensors. -/
def build_net_vars (scope : String) (trainable : Bool) (n : ℕ) :
    List Variable :=
  (List.range n).map (fun i => ⟨scope, i, trainable⟩)

/-- Sizes (number of weight tensors) of the three online networks. -/
structure GraphShape where
  n_policy : ℕ
  n_qf : ℕ
  n_qf2 : ℕ
deriving Repr, DecidableEq

/-- Online policy network variables (built trainable before `init_opt`). -/
def policy_online_vars (g : GraphShape) : List Variable :=
  build_net_vars "policy" true g.n_policy

/-- Online first-critic variables. -/
def qf_online_vars (g : GraphShape) : List Variable :=
  build_net_vars "qf" true g.n_qf

/-- Online second-critic variables. -/
def qf2_online_vars (g : GraphShape) : List Variable :=
  build_net_vars "qf2" true g.n_qf2

/-- Variables of `self.policy.build_net(trainable=False, name=target_policy)`
    (lines 132-133). -/
def target_policy_vars (g : GraphShape) : List Variable :=
  build_net_vars "target_policy" false g.n_policy

/-- Variables of `self.qf.build_net(trainable=False, name=target_qf)` (lines 134-135). -/
def target_qf_vars (g : GraphShape) : List Variable :=
  build_net_vars "target_qf" false g.n_qf

/-- Variables of `self.qf2.build_net(trainable=False, name=target_qf2)`
    (lines 136-137). -/
def target_qf2_vars (g : GraphShape) : List Variable :=
  build_net_vars "target_qf2" false g.n_qf2

/-- All target-network variables of the graph. -/
def all_target_vars (g : GraphShape) : List Variable :=
  target_policy_vars g ++ target_qf_vars g ++ target_qf2_vars g

/-- Filter `get_trainable_vars` on a variable collection: the variables created
    with `trainable=True`. -/
def get_trainable_vars (vs : List Variable) : List Variable :=
  vs.filter (fun v => v.trainable)

/-- List `var_list` of the policy optimizer:
    `self.policy.get_trainable_vars()` (line 190). -/
def policy_opt_var_list (g : GraphShape) : List Variable :=
  get_trainable_vars (policy_online_vars g)

/-- List `var_list` of the optimizer of the first critic:
    `self.qf.get_trainable_vars()` (line 208). -/
def qf_opt_var_list (g : GraphShape) : List Variable :=
  get_trainable_vars (qf_online_vars g)

/-- List `var_list` of the optimizer of the second critic:
    `self.qf2.get_trainable_vars()` (line 211). -/
def qf2_opt_var_list (g : GraphShape) : List Variable :=
  get_trainable_vars (qf2_online_vars g)

/-!
### Target-network weight dynamics (`setup_target`, lines 140-153, and the
calls on lines 287-288)

`DDPG.get_target_ops` itself is not under `src/`; only its call sites are.
-/

/-- Modelled from the spec: `get_target_ops` is missing from `src/`
    (it lives in the parent class `DDPG`); the spec describes it as a
    "Target-Network Synchronizer performing Polyak-averaged soft updates"
    and the glossary defines "Soft update: exponential moving average of
    target network parameters toward online parameters".  One soft-update
    op per weight: `target ← tau * online + (1 - tau) * target`. -/
def soft_update (tau w t : ℚ) : ℚ := tau * w + (1 - tau) * t

/-- Modelled from the spec: the soft-update ops produced by
    `get_target_ops(variables, target_variables, tau)` for a whole weight
    vector, applied elementwise. -/
def soft_update_list (tau : ℚ) (online target : List ℚ) : List ℚ :=
  List.zipWith (fun w t => soft_update tau w t) online target

/-- The weight state of the six networks (flattened weight vectors). -/
structure Weights where
  policy_w : List ℚ
  policy_t : List ℚ
  qf_w : List ℚ
  qf_t : List ℚ
  qf2_w : List ℚ
  qf2_t : List ℚ
deriving Repr, DecidableEq

/-- Effect of `f_update_target` on the weights:
    `target_update_op = policy_update_ops + qf_update_ops` (line 151),
    so it soft-updates the policy target and the first critic target. -/
def f_update_target (tau : ℚ) (s : Weights) : Weights :=
  { s with
    policy_t := soft_update_list tau s.policy_w s.policy_t
    qf_t := soft_update_list tau s.qf_w s.qf_t }

/-- Effect of `f_update_target2` on the weights:
    `target_update_op2 = policy_update_ops + qf2_update_ops` (line 153),
    so it soft-updates the policy target again and the second critic
    target. -/
def f_update_target2 (tau : ℚ) (s : Weights) : Weights :=
  { s with
    policy_t := soft_update_list tau s.policy_w s.policy_t
    qf2_t := soft_update_list tau s.qf2_w s.qf2_t }

/-- Weight effect of `qf_train_op` (lines 206-208): the optimizer step
    writes only its `var_list`, i.e. the online weights of the first
    critic; the gradient-descent arithmetic itself is the external
    optimizer, modelled as an arbitrary update `u` of those weights. -/
def apply_qf_train (u : List ℚ → List ℚ) (s : Weights) : Weights :=
  { s with qf_w := u s.qf_w }

/-- Weight effect of `qf2_train_op` (lines 209-211): writes only the
    online weights of the second critic. -/
def apply_qf2_train (u : List ℚ → List ℚ) (s : Weights) : Weights :=
  { s with qf2_w := u s.qf2_w }

/-- Weight effect of `policy_train_op` (lines 187-190): writes only the
    online policy weights. -/
def apply_policy_train (u : List ℚ → List ℚ) (s : Weights) : Weights :=
  { s with policy_w := u s.policy_w }

/-- The weight-state effect of one `optimize_policy` call, in the order of
    lines 278-288: train critic 1, train critic 2, train the policy, then
    run `f_update_target` and `f_update_target2`. -/
def optimize_policy_weights (tau : ℚ)
    (u_qf u_qf2 u_policy : List ℚ → List ℚ) (s : Weights) : Weights :=
  f_update_target2 tau
    (f_update_target tau
      (apply_policy_train u_policy
        (apply_qf2_train u_qf2
          (apply_qf_train u_qf s))))

/-!
### Actor-loss graph (`init_opt`, lines 172-190)
-/

/-- Lines 172-185 of `init_opt`: the actor loss at a batch of
    observations.  Here `next_action` is the action symbol of the online policy at
    `obs`, `qval`/`q2val` the two online critics evaluated at
    `(obs, next_action)`, `next_qval` their `tf.minimum`, and the loss is
    `-tf.reduce_mean(next_qval)` plus the L2 weight-decay penalty when
    `policy_weight_decay > 0`. -/
def action_loss (cfg : Config) (policy : List ℚ → List ℚ)
    (qf qf2 : List ℚ → List ℚ → ℚ) (reg_vars : List (List ℚ))
    (obs : List (List ℚ)) : ℚ :=
  let next_action := fun o => policy o
  let qval := fun o => qf o (next_action o)
  let q2val := fun o => qf2 o (next_action o)
  let next_qval := fun o => min (qval o) (q2val o)
  let base := -(mean (obs.map next_qval))
  if cfg.policy_weight_decay > 0 then
    base + cfg.policy_weight_decay * l2_sum reg_vars
  else base

/-- The actor loss as the spec words it: "the negated mean over the batch
    of min(Q1(s, pi(s)), Q2(s, pi(s))) evaluated with the online critics
    (plus an optional weight-decay term)". -/
def action_loss_spec (cfg : Config) (policy : List ℚ → List ℚ)
    (qf qf2 : List ℚ → List ℚ → ℚ) (reg_vars : List (List ℚ))
    (obs : List (List ℚ)) : ℚ :=
  -(mean (obs.map (fun s => min (qf s (policy s)) (qf2 s (policy s))))) +
    (if cfg.policy_weight_decay > 0 then
      cfg.policy_weight_decay * l2_sum reg_vars
    else 0)

/-!
### Concrete instances used by witnesses and counterexamples
-/

/-- A concrete configuration: tau = 1/100, discount = 99/100,
    clip_return = 100, no positive-return clipping, no goal input, no
    weight decay, batch size 2. -/
def exCfg : Config :=
  { tau := 1/100, discount := 99/100, clip_return := 100
    clip_pos_returns := false, input_include_goal := false
    policy_weight_decay := 0, qf_weight_decay := 0, buffer_batch_size := 2 }

/-- A concrete transition. -/
def exTr : Transition :=
  { observation := [1], action := [0], reward := 1, terminal := 0
    next_observation := [2], goal := [] }

/-- Concrete target networks: identity policy, sum-based critics. -/
def exNets : TargetNets :=
  { target_policy := fun s => s
    target_qf := fun s a => s.sum + a.sum
    target_qf2 := fun s a => s.sum * a.sum }

/-- Concrete session oracles: the buffer returns copies of `exTr`, the
    first critic callable reports loss 3, the second loss 2. -/
def exOracles : Oracles :=
  { sample := fun n => List.replicate n exTr
    f_train_qf := fun ys _ _ => (3, ys)
    f_train_qf2 := fun ys _ _ => (2, ys.map (fun y => y + 1))
    f_train_policy := fun _ => 5 }

/-- Concrete weight state for the six networks. -/
def exW : Weights :=
  { policy_w := [1, 2], policy_t := [3, 4], qf_w := [5], qf_t := [6]
    qf2_w := [7], qf2_t := [8] }

/-!
### Theorems
-/

/-- C1: for every sampled batch, `optimize_policy` feeds one and the same
    target vector `ys` to both critic training updates, and each of its
    entries is
    `clip(reward + (1 - terminal) * discount * min(targetQ1(s2, a2), targetQ2(s2, a2)), lo, hi)`
    where `s2` is the next input, `a2` the action of the target policy at
    `s2`, `lo = -clip_return` and `hi` is 0 when `clip_pos_returns` else
    `clip_return`. -/
theorem optimize_policy_bootstrapped_targets (cfg : Config)
    (nets : TargetNets) (o : Oracles) (itr : ℕ) :
    ∃ ys : List ℚ,
      Event.train_qf ys ∈ (optimize_policy cfg nets o itr).2 ∧
      Event.train_qf2 ys ∈ (optimize_policy cfg nets o itr).2 ∧
      ys = (o.sample cfg.buffer_batch_size).map (fun tr =>
        min
          (max
            (tr.reward + (1 - tr.terminal) * cfg.discount *
              min
                (nets.target_qf (next_input_row cfg tr)
                  (nets.target_policy (next_input_row cfg tr)))
                (nets.target_qf2 (next_input_row cfg tr)
                  (nets.target_policy (next_input_row cfg tr))))
            (-cfg.clip_return))
          (if cfg.clip_pos_returns then 0 else cfg.clip_return)) := by
  refine ⟨compute_ys cfg nets (o.sample cfg.buffer_batch_size), ?_, ?_, ?_⟩
  · simp [optimize_policy]
  · simp [optimize_policy]
  · rfl

/-- C2 counterexample: the actor update is not delayed.  On two
    consecutive calls (iterations 1 and 2) of `optimize_policy`, the
    policy training step runs both times, so there is no period N for
    which the actor update happens only every N-th call and not on every
    call. -/
theorem actor_update_not_delayed_counterexample :
    Event.train_policy ∈ (optimize_policy exCfg exNets exOracles 1).2 ∧
    Event.train_policy ∈ (optimize_policy exCfg exNets exOracles 2).2 := by
  constructor <;> simp [optimize_policy]

/-- C2 amended: the actor update is not delayed.  Every call of
    `optimize_policy` runs exactly the sequence sample, update critic 1,
    update critic 2, update actor, soft-update targets (twice); in
    particular the actor update happens on every call, regardless of the
    iteration counter. -/
theorem optimize_policy_step_sequence (cfg : Config) (nets : TargetNets)
    (o : Oracles) (itr : ℕ) :
    (optimize_policy cfg nets o itr).2 =
      [Event.sample cfg.buffer_batch_size,
       Event.train_qf (compute_ys cfg nets (o.sample cfg.buffer_batch_size)),
       Event.train_qf2 (compute_ys cfg nets (o.sample cfg.buffer_batch_size)),
       Event.train_policy, Event.update_target, Event.update_target2] ∧
    Event.train_policy ∈ (optimize_policy cfg nets o itr).2 := by
  constructor
  · rfl
  · simp [optimize_policy]

/-- C3: when the configured clip bound is nonnegative, every computed
    target lies in the configured clip range: in
    `[-clip_return, clip_return]` when `clip_pos_returns` is false and in
    `[-clip_return, 0]` when it is true. -/
theorem targets_within_clip_range (cfg : Config) (nets : TargetNets)
    (batch : List Transition) (h : 0 ≤ cfg.clip_return) :
    ∀ y ∈ compute_ys cfg nets batch,
      -cfg.clip_return ≤ y ∧
      y ≤ (if cfg.clip_pos_returns then 0 else cfg.clip_return) := by
  intro y hy
  rcases List.mem_map.mp hy with ⟨tr, _, rfl⟩
  unfold y_of np_clip clip_range
  constructor
  · apply le_min (le_trans ?_ (le_max_right _ _)) ?_
    · exact le_refl _
    · rcases cfg.clip_pos_returns with _ | _ <;> simp <;> linarith
  · exact min_le_right _ _

/-- C3 witness: the concrete configuration has a nonnegative clip bound
    and the conclusion holds on a concrete batch. -/
theorem targets_within_clip_range_witness :
    (0 : ℚ) ≤ exCfg.clip_return ∧
    ∀ y ∈ compute_ys exCfg exNets [exTr],
      -exCfg.clip_return ≤ y ∧
      y ≤ (if exCfg.clip_pos_returns then 0 else exCfg.clip_return) :=
  ⟨by decide, targets_within_clip_range exCfg exNets [exTr] (by decide)⟩

/-- Membership in the variable list created by one `build_net` call. -/
lemma mem_build_net_vars {scope : String} {b : Bool} {n : ℕ} {v : Variable} :
    v ∈ build_net_vars scope b n ↔
      v.scope = scope ∧ v.idx < n ∧ v.trainable = b := by
  simp only [build_net_vars, List.mem_map, List.mem_range]
  constructor
  · rintro ⟨i, hi, rfl⟩
    exact ⟨rfl, hi, rfl⟩
  · rintro ⟨h1, h2, h3⟩
    exact ⟨v.idx, h2, by cases v; simp_all⟩

/-- C4: the actor training loss built by `init_opt` equals the loss the
    spec describes — the negated batch mean of the minimum of the two
    online critics at the policy action, plus the optional weight-decay
    term — and the policy optimizer minimizes it over the trainable
    variables of the policy network only: every variable in its
    `var_list` is a trainable online-policy variable and belongs to no
    critic network and no target network. -/
theorem actor_loss_maximizes_min_of_critics (cfg : Config)
    (policy : List ℚ → List ℚ) (qf qf2 : List ℚ → List ℚ → ℚ)
    (reg_vars : List (List ℚ)) (obs : List (List ℚ)) (g : GraphShape) :
    action_loss cfg policy qf qf2 reg_vars obs =
      action_loss_spec cfg policy qf qf2 reg_vars obs ∧
    ∀ v ∈ policy_opt_var_list g,
      v ∈ policy_online_vars g ∧ v.trainable = true ∧
      v ∉ qf_online_vars g ∧ v ∉ qf2_online_vars g ∧
      v ∉ all_target_vars g := by
  constructor
  · simp only [action_loss, action_loss_spec]
    split_ifs <;> simp
  · intro v hv
    simp only [policy_opt_var_list, get_trainable_vars, List.mem_filter] at hv
    obtain ⟨hmem, htr⟩ := hv
    have hscope := (mem_build_net_vars.mp hmem).1
    refine ⟨hmem, (mem_build_net_vars.mp hmem).2.2, ?_, ?_, ?_⟩
    · intro hq
      have := (mem_build_net_vars.mp hq).1
      rw [hscope] at this
      exact absurd this (by decide)
    · intro hq
      have := (mem_build_net_vars.mp hq).1
      rw [hscope] at this
      exact absurd this (by decide)
    · intro ht
      rcases List.mem_append.mp ht with h | h
      · rcases List.mem_append.mp h with h2 | h2
        · have := (mem_build_net_vars.mp h2).1
          rw [hscope] at this
          exact absurd this (by decide)
        · have := (mem_build_net_vars.mp h2).1
          rw [hscope] at this
          exact absurd this (by decide)
      · have := (mem_build_net_vars.mp h).1
        rw [hscope] at this
        exact absurd this (by decide)

/-- C5: target networks are never directly trained.  Every target-network
    variable is built with the trainable flag cleared; every variable in
    any of the three optimizer variable lists is a trainable online
    variable and is not a target variable; and across the operations of
    one `optimize_policy` call — arbitrary optimizer writes to the online
    weights followed by the two target-update callables — the target
    weights change only by the exponential-moving-average soft update
    toward the current online weights. -/
theorem target_networks_never_directly_trained (g : GraphShape) (tau : ℚ)
    (u_qf u_qf2 u_policy : List ℚ → List ℚ) (s : Weights) :
    (∀ v ∈ all_target_vars g, v.trainable = false) ∧
    (∀ v ∈ policy_opt_var_list g ++ qf_opt_var_list g ++ qf2_opt_var_list g,
      v.trainable = true ∧ v ∉ all_target_vars g) ∧
    (optimize_policy_weights tau u_qf u_qf2 u_policy s).policy_t =
      soft_update_list tau
        (optimize_policy_weights tau u_qf u_qf2 u_policy s).policy_w
        (soft_update_list tau
          (optimize_policy_weights tau u_qf u_qf2 u_policy s).policy_w
          s.policy_t) ∧
    (optimize_policy_weights tau u_qf u_qf2 u_policy s).qf_t =
      soft_update_list tau
        (optimize_policy_weights tau u_qf u_qf2 u_policy s).qf_w s.qf_t ∧
    (optimize_policy_weights tau u_qf u_qf2 u_policy s).qf2_t =
      soft_update_list tau
        (optimize_policy_weights tau u_qf u_qf2 u_policy s).qf2_w s.qf2_t := by
  refine ⟨?_, ?_, rfl, rfl, rfl⟩
  · intro v hv
    rcases List.mem_append.mp hv with h | h
    · rcases List.mem_append.mp h with h2 | h2
      · exact (mem_build_net_vars.mp h2).2.2
      · exact (mem_build_net_vars.mp h2).2.2
    · exact (mem_build_net_vars.mp h).2.2
  · intro v hv
    have hvar : v.trainable = true ∧
        (v.scope = "policy" ∨ v.scope = "qf" ∨ v.scope = "qf2") := by
      rcases List.mem_append.mp hv with h | h
      · rcases List.mem_append.mp h with h2 | h2
        · have := List.mem_filter.mp h2
          exact ⟨(mem_build_net_vars.mp this.1).2.2, Or.inl
            (mem_build_net_vars.mp this.1).1⟩
        · have := List.mem_filter.mp h2
          exact ⟨(mem_build_net_vars.mp this.1).2.2, Or.inr (Or.inl
            (mem_build_net_vars.mp this.1).1)⟩
      · have := List.mem_filter.mp h
        exact ⟨(mem_build_net_vars.mp this.1).2.2, Or.inr (Or.inr
          (mem_build_net_vars.mp this.1).1)⟩
    refine ⟨hvar.1, ?_⟩
    intro ht
    have hts : v.scope = "target_policy" ∨ v.scope = "target_qf" ∨
        v.scope = "target_qf2" := by
      rcases List.mem_append.mp ht with h | h
      · rcases List.mem_append.mp h with h2 | h2
        · exact Or.inl (mem_build_net_vars.mp h2).1
        · exact Or.inr (Or.inl (mem_build_net_vars.mp h2).1)
      · exact Or.inr (Or.inr (mem_build_net_vars.mp h).1)
    rcases hvar.2 with h1 | h1 | h1 <;> rcases hts with h2 | h2 | h2 <;>
      (rw [h1] at h2; exact absurd h2 (by decide))

/-- Composing the scalar soft update with itself, at fixed online weight. -/
lemma soft_update_twice (tau w t : ℚ) :
    soft_update tau w (soft_update tau w t) =
      (1 - (1 - tau) ^ 2) * w + (1 - tau) ^ 2 * t := by
  unfold soft_update
  ring

/-- Composing the vector soft update with itself, at fixed online weights. -/
lemma soft_update_list_twice (tau : ℚ) (w t : List ℚ) :
    soft_update_list tau w (soft_update_list tau w t) =
      List.zipWith
        (fun wi ti => (1 - (1 - tau) ^ 2) * wi + (1 - tau) ^ 2 * ti) w t := by
  induction w generalizing t with
  | nil => simp [soft_update_list]
  | cons a as ih =>
    cases t with
    | nil => simp [soft_update_list]
    | cons b bs =>
      simp only [soft_update_list, List.zipWith] at ih ⊢
      rw [soft_update_twice, ih]

/-- C6: within one `optimize_policy` call the policy target network is
    soft-updated twice (both target-update callables contain the policy
    update ops) while each critic target is soft-updated once, so the
    effective per-step interpolation coefficient for the policy target is
    `1 - (1 - tau)^2`, which differs from `tau` whenever `tau` is neither
    0 nor 1. -/
theorem policy_target_soft_updated_twice (tau : ℚ)
    (u_qf u_qf2 u_policy : List ℚ → List ℚ) (s : Weights)
    (h0 : tau ≠ 0) (h1 : tau ≠ 1) :
    (optimize_policy_weights tau u_qf u_qf2 u_policy s).policy_t =
      List.zipWith
        (fun wi ti => (1 - (1 - tau) ^ 2) * wi + (1 - tau) ^ 2 * ti)
        (optimize_policy_weights tau u_qf u_qf2 u_policy s).policy_w
        s.policy_t ∧
    (optimize_policy_weights tau u_qf u_qf2 u_policy s).qf_t =
      soft_update_list tau
        (optimize_policy_weights tau u_qf u_qf2 u_policy s).qf_w s.qf_t ∧
    (optimize_policy_weights tau u_qf u_qf2 u_policy s).qf2_t =
      soft_update_list tau
        (optimize_policy_weights tau u_qf u_qf2 u_policy s).qf2_w s.qf2_t ∧
    1 - (1 - tau) ^ 2 ≠ tau := by
  refine ⟨?_, rfl, rfl, ?_⟩
  · show soft_update_list tau (u_policy s.policy_w)
        (soft_update_list tau (u_policy s.policy_w) s.policy_t) = _
    exact soft_update_list_twice tau (u_policy s.policy_w) s.policy_t
  · intro hEq
    have h2 : tau * (1 - tau) = 0 := by linear_combination hEq
    rcases mul_eq_zero.mp h2 with h | h
    · exact h0 h
    · exact h1 (by linarith)

/-- C6 witness: concrete instantiation at tau = 1/2 with identity
    optimizer writes and the concrete weight state. -/
theorem policy_target_soft_updated_twice_witness :
    ((1 : ℚ)/2 ≠ 0 ∧ (1 : ℚ)/2 ≠ 1) ∧
    ((optimize_policy_weights ((1 : ℚ)/2) id id id exW).policy_t =
      List.zipWith
        (fun wi ti =>
          (1 - (1 - (1 : ℚ)/2) ^ 2) * wi + (1 - (1 : ℚ)/2) ^ 2 * ti)
        (optimize_policy_weights ((1 : ℚ)/2) id id id exW).policy_w
        exW.policy_t ∧
    (optimize_policy_weights ((1 : ℚ)/2) id id id exW).qf_t =
      soft_update_list ((1 : ℚ)/2)
        (optimize_policy_weights ((1 : ℚ)/2) id id id exW).qf_w exW.qf_t ∧
    (optimize_policy_weights ((1 : ℚ)/2) id id id exW).qf2_t =
      soft_update_list ((1 : ℚ)/2)
        (optimize_policy_weights ((1 : ℚ)/2) id id id exW).qf2_w exW.qf2_t ∧
    1 - (1 - (1 : ℚ)/2) ^ 2 ≠ (1 : ℚ)/2) :=
  ⟨⟨ne_of_gt one_half_pos, ne_of_lt one_half_lt_one⟩,
    policy_target_soft_updated_twice ((1 : ℚ)/2) id id id exW
      (ne_of_gt one_half_pos) (ne_of_lt one_half_lt_one)⟩

/-- The batch drawn on line 248: `replay_buffer.sample(buffer_batch_size)`. -/
def sampled_batch (cfg : Config) (o : Oracles) : List Transition :=
  o.sample cfg.buffer_batch_size

/-- Fetch result `(qval_loss, qval)` of the first critic training call on
    line 278. -/
def critic1_result (cfg : Config) (nets : TargetNets) (o : Oracles) :
    ℚ × List ℚ :=
  o.f_train_qf (compute_ys cfg nets (sampled_batch cfg o))
    ((sampled_batch cfg o).map (input_row cfg))
    ((sampled_batch cfg o).map Transition.action)

/-- Fetch result `(q2val_loss, q2val)` of the second critic training call
    on line 279. -/
def critic2_result (cfg : Config) (nets : TargetNets) (o : Oracles) :
    ℚ × List ℚ :=
  o.f_train_qf2 (compute_ys cfg nets (sampled_batch cfg o))
    ((sampled_batch cfg o).map (input_row cfg))
    ((sampled_batch cfg o).map Transition.action)

/-- Fetch result `action_loss` of the policy training call on line 285. -/
def policy_result (cfg : Config) (o : Oracles) : ℚ :=
  o.f_train_policy ((sampled_batch cfg o).map (input_row cfg))

/-- Selection on lines 281-282: keeping the prediction of whichever
    critic attained the smaller loss is the same as the equality test
    against the minimum that the source writes. -/
lemma select_min_loss (l1 l2 : ℚ) (q1 q2 : List ℚ) :
    (if l2 = min l1 l2 then q2 else q1) = if l2 ≤ l1 then q2 else q1 := by
  by_cases h : l2 ≤ l1
  · rw [if_pos (min_eq_right h).symm, if_pos h]
  · rw [if_neg (fun heq => h (by rw [heq]; exact min_le_left l1 l2)),
      if_neg h]

/-- C7: the loss returned by `optimize_policy` is the minimum of the two
    critic losses of the step, and the returned prediction is that of
    whichever critic attained the smaller loss, the second critic when
    the losses are equal. -/
theorem optimize_policy_returns_min_loss (cfg : Config) (nets : TargetNets)
    (o : Oracles) (itr : ℕ) :
    (optimize_policy cfg nets o itr).1.1 =
      min (critic1_result cfg nets o).1 (critic2_result cfg nets o).1 ∧
    (optimize_policy cfg nets o itr).1.2.2.1 =
      (if (critic2_result cfg nets o).1 ≤ (critic1_result cfg nets o).1
       then (critic2_result cfg nets o).2
       else (critic1_result cfg nets o).2) := by
  refine ⟨rfl, ?_⟩
  show (if (critic2_result cfg nets o).1 =
        min (critic1_result cfg nets o).1 (critic2_result cfg nets o).1
      then (critic2_result cfg nets o).2
      else (critic1_result cfg nets o).2) = _
  exact select_min_loss _ _ _ _

/-- C8: `optimize_policy` returns the 4-tuple
    `(qval_loss, targets, qval, action_loss)` in exactly this order: the
    minimized critic loss first, then the target vector `ys`, then the
    selected critic prediction, then the actor loss. -/
theorem optimize_policy_return_tuple (cfg : Config) (nets : TargetNets)
    (o : Oracles) (itr : ℕ) :
    (optimize_policy cfg nets o itr).1 =
      (min (critic1_result cfg nets o).1 (critic2_result cfg nets o).1,
       compute_ys cfg nets (sampled_batch cfg o),
       (if (critic2_result cfg nets o).1 =
            min (critic1_result cfg nets o).1 (critic2_result cfg nets o).1
        then (critic2_result cfg nets o).2
        else (critic1_result cfg nets o).2),
       policy_result cfg o) := rfl

/-- Weight of one target-network parameter after `n` repeated soft
    updates toward a fixed online weight `w`, starting from `t`. -/
def soft_update_iter (tau w t : ℚ) (n : ℕ) : ℚ :=
  (soft_update tau w)^[n] t

/-- One soft update moves the target toward the online weight by the
    factor `1 - tau`. -/
lemma soft_update_dist (tau w : ℚ) (h1 : tau ≤ 1) (x : ℚ) :
    |soft_update tau w x - w| = (1 - tau) * |x - w| := by
  have key : soft_update tau w x - w = (1 - tau) * (x - w) := by
    unfold soft_update
    ring
  rw [key, abs_mul, abs_of_nonneg (by linarith : (0 : ℚ) ≤ 1 - tau)]

/-- Distance to the online weight after `n` repeated soft updates. -/
lemma soft_update_iter_dist (tau w t : ℚ) (h1 : tau ≤ 1) (n : ℕ) :
    |soft_update_iter tau w t n - w| = (1 - tau) ^ n * |t - w| := by
  induction n with
  | zero => simp [soft_update_iter]
  | succ n ih =>
    have : soft_update_iter tau w t (n + 1) =
        soft_update tau w (soft_update_iter tau w t n) := by
      unfold soft_update_iter
      exact Function.iterate_succ_apply' _ _ _
    rw [this, soft_update_dist tau w h1, ih]
    ring

/-- C9: with the online weight held fixed and `tau` in `(0, 1]`, the
    repeated soft update contracts the distance of the target weight to
    the online weight by the factor `1 - tau` at every step, so the
    distance is `(1 - tau)^n` times the initial one, decreases
    monotonically, and falls below every positive bound. -/
theorem soft_updates_converge_to_online (tau w t : ℚ)
    (h0 : 0 < tau) (h1 : tau ≤ 1) :
    (∀ x : ℚ, |soft_update tau w x - w| = (1 - tau) * |x - w|) ∧
    (∀ n : ℕ, |soft_update_iter tau w t n - w| =
      (1 - tau) ^ n * |t - w|) ∧
    (∀ n : ℕ, |soft_update_iter tau w t (n + 1) - w| ≤
      |soft_update_iter tau w t n - w|) ∧
    (∀ ε : ℚ, 0 < ε → ∃ n : ℕ, |soft_update_iter tau w t n - w| < ε) := by
  refine ⟨soft_update_dist tau w h1, soft_update_iter_dist tau w t h1, ?_, ?_⟩
  · intro n
    rw [soft_update_iter_dist tau w t h1, soft_update_iter_dist tau w t h1]
    have hpow : (1 - tau) ^ (n + 1) ≤ (1 - tau) ^ n :=
      pow_le_pow_of_le_one (by linarith) (by linarith) (Nat.le_succ n)
    exact mul_le_mul_of_nonneg_right hpow (abs_nonneg _)
  · intro ε hε
    have hd : (0 : ℚ) < |t - w| + 1 := by
      have := abs_nonneg (t - w)
      linarith
    obtain ⟨n, hn⟩ := exists_pow_lt_of_lt_one
      (div_pos hε hd) (by linarith : 1 - tau < 1)
    refine ⟨n, ?_⟩
    rw [soft_update_iter_dist tau w t h1]
    have hpn : (0 : ℚ) ≤ (1 - tau) ^ n := pow_nonneg (by linarith) n
    have step1 : (1 - tau) ^ n * |t - w| ≤ (1 - tau) ^ n * (|t - w| + 1) :=
      mul_le_mul_of_nonneg_left (by linarith) hpn
    have step2 : (1 - tau) ^ n * (|t - w| + 1) < ε :=
      (lt_div_iff₀ hd).mp hn
    linarith

/-- C9 witness: concrete instantiation at tau = 1/2, online weight 0,
    initial target weight 1. -/
theorem soft_updates_converge_to_online_witness :
    ((0 : ℚ) < 1/2 ∧ (1 : ℚ)/2 ≤ 1) ∧
    ((∀ x : ℚ, |soft_update ((1 : ℚ)/2) 0 x - 0| =
        (1 - (1 : ℚ)/2) * |x - 0|) ∧
     (∀ n : ℕ, |soft_update_iter ((1 : ℚ)/2) 0 1 n - 0| =
        (1 - (1 : ℚ)/2) ^ n * |(1 : ℚ) - 0|) ∧
     (∀ n : ℕ, |soft_update_iter ((1 : ℚ)/2) 0 1 (n + 1) - 0| ≤
        |soft_update_iter ((1 : ℚ)/2) 0 1 n - 0|) ∧
     (∀ ε : ℚ, 0 < ε →
        ∃ n : ℕ, |soft_update_iter ((1 : ℚ)/2) 0 1 n - 0| < ε)) :=
  ⟨⟨one_half_pos, le_of_lt one_half_lt_one⟩,
    soft_updates_converge_to_online ((1 : ℚ)/2) 0 1 one_half_pos
      (le_of_lt one_half_lt_one)⟩

/-- The target networks with the two target critics exchanged. -/
def swap_target_critics (nets : TargetNets) : TargetNets :=
  { nets with target_qf := nets.target_qf2, target_qf2 := nets.target_qf }

/-- C10: the minimum-of-two-critics selection is symmetric.  Exchanging
    the two target critics leaves every computed target vector unchanged,
    and exchanging the two online critics leaves the actor loss
    unchanged, for all estimates. -/
theorem min_of_two_critics_symmetric :
    (∀ (cfg : Config) (nets : TargetNets) (batch : List Transition),
      compute_ys cfg nets batch =
        compute_ys cfg (swap_target_critics nets) batch) ∧
    (∀ (cfg : Config) (policy : List ℚ → List ℚ)
        (qf qf2 : List ℚ → List ℚ → ℚ) (reg_vars : List (List ℚ))
        (obs : List (List ℚ)),
      action_loss cfg policy qf qf2 reg_vars obs =
        action_loss cfg policy qf2 qf reg_vars obs) := by
  constructor
  · intro cfg nets batch
    have h : y_of cfg nets = y_of cfg (swap_target_critics nets) := by
      funext tr
      simp only [y_of, swap_target_critics]
      rw [min_comm]
    unfold compute_ys
    rw [h]
  · intro cfg policy qf qf2 reg_vars obs
    simp only [action_loss]
    rw [show (fun o => min (qf o (policy o)) (qf2 o (policy o))) =
        (fun o => min (qf2 o (policy o)) (qf o (policy o))) from
      funext fun o => min_comm _ _]

end TD3
